import Mathlib

/-!
Shallow embedding of the DocuStay core that the specification describes:
the jurisdiction risk classifier (`jleService`, in `src/unnamed/part_004`),
the agreement generator (`src/frontend/services/api.ts`), the owner-dashboard
occupancy and Shield-Mode derivations (`src/frontend/pages/Owner/*.tsx`), and
the guest checkout availability rule (`src/frontend/pages/Guest/GuestDashboard.tsx`).

Conventions used throughout:
- TypeScript `number` fields holding whole day counts are embedded as `Int`.
- Calendar dates (`YYYY-MM-DD` strings in the source, compared lexicographically,
  which agrees with chronological order for that fixed format) are embedded as
  `Int` day ordinals, compared with the usual order.
- Nullable timestamp columns become `Option Int`; JavaScript truthiness on them
  (`!x`, `x != null`) becomes `Option.isSome`.
- String union types of the source are kept as `String` where the source treats
  them as data (`classification`), and as a small inductive where the source
  restricts them by type (`Severity`, `JurisdictionState`).
-/

namespace DocuStay

/-- Severity levels: the source's union type `'LOW' | 'MEDIUM' | 'HIGH' | 'CRITICAL'`. -/
inductive Severity where
  | LOW
  | MEDIUM
  | HIGH
  | CRITICAL
deriving DecidableEq, Repr

/-- `JurisdictionState`: the five supported region codes (src/unnamed/part_004 line 1). -/
inductive JurisdictionState where
  | NY
  | FL
  | CA
  | TX
  | WA
deriving DecidableEq, Repr

/-- `StayDetails` (src/unnamed/part_004 lines 3-9). Dates are day ordinals. -/
structure StayDetails where
  durationDays : Int
  paymentInvolved : Bool
  exclusivePossession : Bool
  checkInDate : Int
  checkOutDate : Int
deriving DecidableEq, Repr

/-- `RiskFactor` (src/unnamed/part_004 lines 11-16). -/
structure RiskFactor where
  factor : String
  severity : Severity
  message : String
  recommendation : Option String
deriving DecidableEq, Repr

/-- `removalProcess` sub-object of a jurisdiction rule. -/
structure RemovalProcess where
  guestRemoval : String
  tenantEviction : String
deriving DecidableEq, Repr

/-- The per-state rule record stored in `JURISDICTION_RULES`. -/
structure Rules where
  name : String
  maxSafeStayDays : Int
  tenancyThresholdDays : Int
  warningDays : Int
  keyStatute : String
  agreementType : String
  removalProcess : RemovalProcess
deriving DecidableEq, Repr

/-- `JURISDICTION_RULES` (src/unnamed/part_004 lines 18-79), keyed by the
typed state code. -/
def JURISDICTION_RULES : JurisdictionState → Rules
  | .NY =>
    { name := "New York"
      maxSafeStayDays := 29
      tenancyThresholdDays := 30
      warningDays := 5
      keyStatute := "RPAPL § 711"
      agreementType := "REVOCABLE_LICENSE"
      removalProcess :=
        { guestRemoval := "Immediate with license termination"
          tenantEviction := "30-60 day court process" } }
  | .FL =>
    { name := "Florida"
      maxSafeStayDays := 29
      tenancyThresholdDays := 30
      warningDays := 5
      keyStatute := "F.S. § 82.036"
      agreementType := "HB621_DECLARATION"
      removalProcess :=
        { guestRemoval := "Immediate Sheriff removal with HB621 declaration"
          tenantEviction := "Standard eviction process" } }
  | .CA =>
    { name := "California"
      maxSafeStayDays := 29
      tenancyThresholdDays := 30
      warningDays := 5
      keyStatute := "CA Civil Code § 1946.5"
      agreementType := "TRANSIENT_LODGER"
      removalProcess :=
        { guestRemoval := "Police removal as trespasser (if single lodger)"
          tenantEviction := "30-60 day process" } }
  | .TX =>
    { name := "Texas"
      maxSafeStayDays := 14
      tenancyThresholdDays := 7
      warningDays := 3
      keyStatute := "Property Code Chapter 92"
      agreementType := "TRANSIENT_GUEST"
      removalProcess :=
        { guestRemoval := "24-hour notice"
          tenantEviction := "3-day notice + JP Court" } }
  | .WA =>
    { name := "Washington"
      maxSafeStayDays := 29
      tenancyThresholdDays := 30
      warningDays := 5
      keyStatute := "RCW 9A.52.105"
      agreementType := "ANTI_SQUATTER_DECLARATION"
      removalProcess :=
        { guestRemoval := "Police removal with RCW declaration"
          tenantEviction := "20-day notice + court" } }

/-- Parsing a raw region-code string into a typed state: mirrors the runtime
string-keyed lookup `JURISDICTION_RULES[state]` on the TypeScript `Record`,
which yields `undefined` for any key outside the five entries. -/
def parseJurisdiction (code : String) : Option JurisdictionState :=
  if code = "NY" then some .NY
  else if code = "FL" then some .FL
  else if code = "CA" then some .CA
  else if code = "TX" then some .TX
  else if code = "WA" then some .WA
  else none

/-- `jurisdiction` field of the classifier result. -/
structure JurisdictionInfo where
  state : JurisdictionState
  name : String
  keyStatute : String
deriving DecidableEq, Repr

/-- `classification` field of the classifier result. -/
structure Classification where
  stayType : String
  riskLevel : Severity
  riskScore : Int
deriving DecidableEq, Repr

/-- `limits` field of the classifier result. -/
structure Limits where
  maxSafeStayDays : Int
  withinLimit : Bool
  daysUntilRisk : Int
deriving DecidableEq, Repr

/-- `legal` field of the classifier result. -/
structure LegalInfo where
  agreementType : String
  removalProcess : RemovalProcess
deriving DecidableEq, Repr

/-- Return value of `analyzeStay`. -/
structure AnalyzeResult where
  jurisdiction : JurisdictionInfo
  classification : Classification
  limits : Limits
  riskFactors : List RiskFactor
  legal : LegalInfo
  canProceed : Bool
deriving DecidableEq, Repr

/-- The fixed factor-weight table inside `analyzeStay`
(src/unnamed/part_004 lines 123-128), with the `|| 10` fallback of
`weights[rf.factor] || 10`. -/
def factorWeight (factor : String) : Int :=
  (([("DURATION_EXCEEDS_LIMIT", (50 : Int)),
     ("APPROACHING_LIMIT", 20),
     ("PAYMENT_INVOLVED", 25),
     ("EXCLUSIVE_POSSESSION", 20)] : List (String × Int)).lookup factor).getD 10

/-- `analyzeStay` (src/unnamed/part_004 lines 81-148), for a state code that
passed the `if (!rules) throw` guard. Translated clause by clause:
duration check, payment check, risk score, result object. -/
def analyzeStay (state : JurisdictionState) (details : StayDetails) : AnalyzeResult :=
  let rules := JURISDICTION_RULES state
  -- Duration check
  let dur :=
    if details.durationDays > rules.maxSafeStayDays then
      ("TENANT_RISK", Severity.CRITICAL,
       [{ factor := "DURATION_EXCEEDS_LIMIT"
          severity := Severity.CRITICAL
          message := "Stay of " ++ toString details.durationDays ++
            " days exceeds safe limit of " ++ toString rules.maxSafeStayDays ++ " days"
          recommendation := some "Shorten stay to below limit." }])
    else if details.durationDays > rules.maxSafeStayDays - rules.warningDays then
      ("TEMPORARY_OCCUPANT", Severity.MEDIUM,
       [{ factor := "APPROACHING_LIMIT"
          severity := Severity.MEDIUM
          message := "Stay is within " ++ toString rules.warningDays ++ " days of limit"
          recommendation := some "Ensure check-out is strictly enforced." }])
    else
      ("GUEST", Severity.LOW, [])
  let classification := dur.1
  -- Payment check
  let pay :=
    if details.paymentInvolved then
      let severity := if state = .TX then Severity.HIGH else Severity.MEDIUM
      let rf : RiskFactor :=
        { factor := "PAYMENT_INVOLVED"
          severity := severity
          message :=
            if state = .TX then "Any payment in Texas can create tenant status"
            else "Payment may resemble rent"
          recommendation := some "Avoid any exchange of money or labor." }
      (if dur.2.1 ≠ Severity.CRITICAL then severity else dur.2.1, dur.2.2 ++ [rf])
    else
      (dur.2.1, dur.2.2)
  let riskLevel := pay.1
  let riskFactors := pay.2
  -- Risk Score
  let riskScore := min 100 (riskFactors.foldl (fun acc rf => acc + factorWeight rf.factor) 0)
  { jurisdiction := { state := state, name := rules.name, keyStatute := rules.keyStatute }
    classification := { stayType := classification, riskLevel := riskLevel, riskScore := riskScore }
    limits :=
      { maxSafeStayDays := rules.maxSafeStayDays
        withinLimit := details.durationDays ≤ rules.maxSafeStayDays
        daysUntilRisk := max 0 (rules.maxSafeStayDays - details.durationDays) }
    riskFactors := riskFactors
    legal := { agreementType := rules.agreementType, removalProcess := rules.removalProcess }
    canProceed := riskLevel ≠ Severity.CRITICAL }

/-- `analyzeStay` as invoked with a raw region-code string: the
`if (!rules) throw new Error("Unsupported jurisdiction")` guard
(src/unnamed/part_004 lines 82-83) becomes an `Except`. -/
def analyzeStayChecked (state : String) (details : StayDetails) :
    Except String AnalyzeResult :=
  match parseJurisdiction state with
  | none => .error "Unsupported jurisdiction"
  | some s => .ok (analyzeStay s details)

/-- The condition under which the code assigns the `PAYMENT_INVOLVED` factor
severity `HIGH` (src/unnamed/part_004 line 112): the jurisdiction is Texas.
The rules table carries no explicit flag; the accompanying message ("Any
payment in Texas can create tenant status") identifies this hard-coded test as
the code's rendering of "the jurisdiction treats any payment as
tenancy-creating". -/
def treatsAnyPaymentAsTenancyCreating (s : JurisdictionState) : Bool :=
  decide (s = JurisdictionState.TX)

/-- The specification's computation of the stay duration, for comparison with
the code: `durationDays = ceil(stayEnd − stayStart in days)` (spec §4.1).
With dates embedded as whole-day ordinals the difference is an exact number
of days, so its ceiling is the difference itself. -/
def specDurationDays (details : StayDetails) : Int :=
  details.checkOutDate - details.checkInDate

/-- `OwnerStayView` (src/frontend/services/api.ts lines 335-352), restricted to
the fields the occupancy/risk derivations read. Display-only string fields
(guest and property names, region label, legal texts) are omitted. -/
structure OwnerStayView where
  stay_id : Int
  property_id : Int
  stay_start_date : Int
  stay_end_date : Int
  max_stay_allowed_days : Int
  revoked_at : Option Int
  checked_out_at : Option Int
  cancelled_at : Option Int
deriving DecidableEq, Repr

/-- `activeStays` in the owner dashboard
(src/frontend/pages/Owner/AddProperty.tsx line 324):
`stays.filter((s) => !s.checked_out_at && !s.cancelled_at)`. -/
def ownerActiveStays (stays : List OwnerStayView) : List OwnerStayView :=
  stays.filter (fun s => !s.checked_out_at.isSome && !s.cancelled_at.isSome)

/-- Owner-dashboard per-property occupancy
(src/frontend/pages/Owner/AddProperty.tsx lines 890-892):
`isOccupied = !!activeStays.find((s) => s.property_id === prop.id)`. -/
def ownerDashboardIsOccupied (stays : List OwnerStayView) (propId : Int) : Bool :=
  (ownerActiveStays stays).any (fun s => s.property_id = propId)

/-- Property-detail occupancy (src/frontend/pages/Owner/PropertyDetail.tsx
lines 65-69): filter the stays to the property, keep those with neither
`checked_out_at` nor `cancelled_at`, and test non-emptiness. -/
def propertyDetailIsOccupied (stays : List OwnerStayView) (propId : Int) : Bool :=
  let propertyStays := stays.filter (fun s => s.property_id = propId)
  let activeStaysForProperty :=
    propertyStays.filter (fun s => !s.checked_out_at.isSome && !s.cancelled_at.isSome)
  decide (activeStaysForProperty.length > 0)

/-- The specification's occupancy rule, for comparison with the code (spec §3):
occupied iff at least one Stay for the property has no terminal marker
(none of `checkedOutAt`, `cancelledAt`, `revokedAt`) and `stayStartDate ≤ today`. -/
def specOccupied (stays : List OwnerStayView) (propId today : Int) : Prop :=
  ∃ s ∈ stays, s.property_id = propId ∧ s.checked_out_at = none ∧
    s.cancelled_at = none ∧ s.revoked_at = none ∧ s.stay_start_date ≤ today

instance (stays : List OwnerStayView) (propId today : Int) :
    Decidable (specOccupied stays propId today) := by
  unfold specOccupied
  infer_instance

/-- `currentGuestRisk` in the property-detail page
(src/frontend/pages/Owner/PropertyDetail.tsx lines 73-81): the classifier is
called with `durationDays: activeStay.max_stay_allowed_days` and the stay's
dates passed through unchanged. -/
def propertyDetailCurrentGuestRisk (stateKey : JurisdictionState)
    (activeStay : OwnerStayView) : AnalyzeResult :=
  analyzeStay stateKey
    { durationDays := activeStay.max_stay_allowed_days
      paymentInvolved := false
      exclusivePossession := false
      checkInDate := activeStay.stay_start_date
      checkOutDate := activeStay.stay_end_date }

/-- `GuestStayView` (src/frontend/services/api.ts lines 369-385), restricted to
the fields the checkout/cancel availability rules read. -/
structure GuestStayView where
  approved_stay_start_date : Int
  approved_stay_end_date : Int
  revoked_at : Option Int
  vacate_by : Option Int
  checked_out_at : Option Int
  cancelled_at : Option Int
deriving DecidableEq, Repr

/-- `canCheckout` in the guest dashboard stay card
(src/frontend/pages/Guest/GuestDashboard.tsx line 294):
`!s.checked_out_at && !s.cancelled_at && s.approved_stay_end_date >= today &&
(s.approved_stay_start_date <= today || s.revoked_at != null)`. -/
def guestCanCheckoutCard (s : GuestStayView) (today : Int) : Bool :=
  !s.checked_out_at.isSome && !s.cancelled_at.isSome &&
    decide (s.approved_stay_end_date ≥ today) &&
    (decide (s.approved_stay_start_date ≤ today) || s.revoked_at.isSome)

/-- The guard on the "Complete checkout" button in the stay detail hero
(src/frontend/pages/Guest/GuestDashboard.tsx line 466):
`!stay.checked_out_at && !stay.cancelled_at && (stay.approved_stay_end_date >=
today && (stay.approved_stay_start_date <= today || stay.revoked_at != null))`. -/
def guestCheckoutButtonShown (s : GuestStayView) (today : Int) : Bool :=
  !s.checked_out_at.isSome && !s.cancelled_at.isSome &&
    (decide (s.approved_stay_end_date ≥ today) &&
      (decide (s.approved_stay_start_date ≤ today) || s.revoked_at.isSome))

/-- The claim's availability condition for guest checkout, for comparison with
the code: offered exactly when the stay is open (no terminal marker set) and
either its start date is on or before today or the stay has been revoked. -/
def claimCheckoutOffered (s : GuestStayView) (today : Int) : Prop :=
  (s.checked_out_at = none ∧ s.cancelled_at = none ∧ s.revoked_at = none) ∧
    (s.approved_stay_start_date ≤ today ∨ s.revoked_at ≠ none)

instance (s : GuestStayView) (today : Int) :
    Decidable (claimCheckoutOffered s today) := by
  unfold claimCheckoutOffered
  infer_instance

/-- Modelled from the spec: the backend of `dashboardApi.guestEndStay`
(`POST /dashboard/guest/stays/:id/end`) is not under `src/`; per spec §4.3,
`endStay` "sets `checkedOutAt = today`" (the confirmation dialog in
GuestDashboard.tsx line 600 states the same). -/
def guestEndStay (s : GuestStayView) (today : Int) : GuestStayView :=
  { s with checked_out_at := some today }

/-- The owner-dashboard Shield Mode toggle click handler
(src/frontend/pages/Owner/AddProperty.tsx lines 985-997): it returns without
any update when Shield Mode is off (`if (!shieldOn) return`, and the button is
additionally `disabled` then), and otherwise issues
`propertiesApi.update(prop.id, { shield_mode_enabled: false })`. The result is
the value written to `shield_mode_enabled`, or `none` when no update is issued. -/
def ownerDashboardShieldClick (shieldOn : Bool) : Option Bool :=
  if !shieldOn then none else some false

/-- The property-detail Shield Mode toggle click handler
(src/frontend/pages/Owner/PropertyDetail.tsx lines 394-406):
`if (!property || !shieldOn) return;` then
`propertiesApi.update(property.id, { shield_mode_enabled: false })`. -/
def propertyDetailShieldClick (hasProperty shieldOn : Bool) : Option Bool :=
  if !hasProperty || !shieldOn then none else some false

/-- A clause of the agreement generator's `CLAUSE_LIBRARY`
(src/frontend/services/api.ts lines 748-802). The clause body `text` and the
merge-field substitution applied to it are elided: no claim refers to the prose,
and the one numeric merge field (`REVOCATION_HOURS`) is recorded on the
selected template. -/
structure Clause where
  id : String
  name : String
  category : String
  applicableStates : List String
  statute : Option String
deriving DecidableEq, Repr

/-- `CLAUSE_LIBRARY` (src/frontend/services/api.ts lines 757-802). -/
def CLAUSE_LIBRARY : List (String × Clause) :=
  [("NO_TENANCY_UNIVERSAL",
    { id := "NO_TENANCY_UNIVERSAL", name := "No Tenancy Rights",
      category := "RELATIONSHIP", applicableStates := ["ALL"], statute := none }),
   ("NO_HOMESTEAD_UNIVERSAL",
    { id := "NO_HOMESTEAD_UNIVERSAL", name := "No Homestead Rights",
      category := "RELATIONSHIP", applicableStates := ["ALL"], statute := none }),
   ("UTILITY_RESTRICTION_UNIVERSAL",
    { id := "UTILITY_RESTRICTION_UNIVERSAL", name := "Utility Account Restriction",
      category := "UTILITIES", applicableStates := ["ALL"], statute := none }),
   ("REVOCABILITY_UNIVERSAL",
    { id := "REVOCABILITY_UNIVERSAL", name := "Revocability Clause",
      category := "REVOCATION", applicableStates := ["ALL"], statute := none }),
   ("FL_HB621_DECLARATION",
    { id := "FL_HB621_DECLARATION", name := "HB 621 Sworn Declaration",
      category := "STATE_SPECIFIC", applicableStates := ["FL"],
      statute := some "F.S. § 82.036" }),
   ("NY_LICENSE_NOT_LEASE",
    { id := "NY_LICENSE_NOT_LEASE", name := "License Not Lease (NY)",
      category := "RELATIONSHIP", applicableStates := ["NY"],
      statute := some "RPAPL § 711" })]

/-- Lookup in `CLAUSE_LIBRARY` (a string-keyed `Record`; a miss is `undefined`). -/
def clauseLookup (id : String) : Option Clause :=
  CLAUSE_LIBRARY.lookup id

/-- A state template of the agreement generator
(src/frontend/services/api.ts lines 804-815). -/
structure StateTemplate where
  title : String
  requiredClauses : List String
  revocationHours : Int
deriving DecidableEq, Repr

/-- The `"FL"` entry of `STATE_TEMPLATES`. -/
def FL_TEMPLATE : StateTemplate :=
  { title := "FLORIDA TRANSIENT OCCUPANCY LICENSE (F.S. § 82.036)"
    requiredClauses := ["NO_TENANCY_UNIVERSAL", "NO_HOMESTEAD_UNIVERSAL",
      "FL_HB621_DECLARATION", "REVOCABILITY_UNIVERSAL", "UTILITY_RESTRICTION_UNIVERSAL"]
    revocationHours := 12 }

/-- The `"NY"` entry of `STATE_TEMPLATES`. -/
def NY_TEMPLATE : StateTemplate :=
  { title := "NEW YORK REVOCABLE LICENSE FOR TEMPORARY OCCUPANCY"
    requiredClauses := ["NY_LICENSE_NOT_LEASE", "NO_HOMESTEAD_UNIVERSAL",
      "REVOCABILITY_UNIVERSAL", "UTILITY_RESTRICTION_UNIVERSAL"]
    revocationHours := 24 }

/-- `STATE_TEMPLATES` (src/frontend/services/api.ts lines 804-815): a
string-keyed `Record` with only `"FL"` and `"NY"` entries. -/
def STATE_TEMPLATES : String → Option StateTemplate
  | "FL" => some FL_TEMPLATE
  | "NY" => some NY_TEMPLATE
  | _ => none

/-- The state code as the runtime string used to index `STATE_TEMPLATES`. -/
def jurisdictionCode : JurisdictionState → String
  | .NY => "NY"
  | .FL => "FL"
  | .CA => "CA"
  | .TX => "TX"
  | .WA => "WA"

/-- The template chosen by `generateAgreementContent`
(src/frontend/services/api.ts line 818):
`STATE_TEMPLATES[state] || STATE_TEMPLATES["FL"]`. -/
def selectedTemplate (state : JurisdictionState) : StateTemplate :=
  (STATE_TEMPLATES (jurisdictionCode state)).getD FL_TEMPLATE

/-- Return value of `generateAgreementContent`, minus the clause prose (see
`Clause`) and the generated `id` (built from `Date.now()` and `Math.random()`,
hence nondeterministic; no claim refers to it). -/
structure Agreement where
  title : String
  clauses : List (Option Clause)
deriving DecidableEq, Repr

/-- `generateAgreementContent` (src/frontend/services/api.ts lines 817-841):
pick the state template (falling back to Florida), map the required clause ids
through the clause library, and return the titled agreement. -/
def generateAgreementContent (state : JurisdictionState) : Agreement :=
  let template := selectedTemplate state
  let clauses := template.requiredClauses.map clauseLookup
  { title := template.title, clauses := clauses }

/-- Modelled from the spec: the periodic enforcement evaluator (Dead Man's
Switch, spec §4.4) is backend code not present under `src/` — the frontend only
describes it (src/frontend/pages/Owner/AddProperty.tsx line 1679). A stay as
the evaluator sees it; instants are hours since an epoch, `stayEndDate` being
the instant the stay's end date begins. -/
structure SchedStay where
  stayEndDate : Int
  checkedOutAt : Option Int
  cancelledAt : Option Int
  revokedAt : Option Int
  deadMansSwitchEnabled : Bool
deriving DecidableEq, Repr

/-- Modelled from the spec: the property-level enforcement state that rule 3 of
the evaluator mutates (vacant-equivalent enforcement, utility-lock flag). -/
structure SchedProperty where
  vacantEquivalentEnforcement : Bool
  utilityLockFlagged : Bool
deriving DecidableEq, Repr

/-- A stay is open when no terminal marker is set (spec §3, Invariant I1). -/
def schedStayOpen (s : SchedStay) : Bool :=
  !s.checkedOutAt.isSome && !s.cancelledAt.isSome && !s.revokedAt.isSome

/-- The derived `overstayed` sub-state (spec §4.3): end date passed and still
open. -/
def schedOverstayed (s : SchedStay) (today : Int) : Bool :=
  schedStayOpen s && decide (s.stayEndDate < today)

/-- Modelled from the spec: rule 3 of the enforcement evaluator (spec §4.4) —
when `today > stayEndDate + 48h` and the Stay is still open (and its Dead Man's
Switch is enabled), auto-transition the property to vacant-equivalent
enforcement and flag it for utility lock, leaving the Stay itself untouched. -/
def evaluateHardOverstay (today : Int) (s : SchedStay) (p : SchedProperty) :
    SchedStay × SchedProperty :=
  if s.deadMansSwitchEnabled && schedStayOpen s && decide (today > s.stayEndDate + 48) then
    (s, { p with vacantEquivalentEnforcement := true, utilityLockFlagged := true })
  else
    (s, p)

/-! ## Theorems for the claims -/

/-- C1 counterexample: the claim asserts riskLevel LOW for every stay beneath
the warning window, but a 10-day New York stay *with payment involved* is
classified GUEST with riskLevel MEDIUM (the payment check raises it), so the
riskLevel part of the claim fails as stated. -/
theorem c1_counterexample :
    (10 : Int) ≤ (JURISDICTION_RULES .NY).maxSafeStayDays - (JURISDICTION_RULES .NY).warningDays ∧
    (analyzeStay .NY ⟨10, true, false, 0, 0⟩).classification.stayType = "GUEST" ∧
    (analyzeStay .NY ⟨10, true, false, 0, 0⟩).classification.riskLevel ≠ Severity.LOW := by
  decide

/-- C1 (amended): for every supported region and every stay, `analyzeStay`
returns stayType TENANT_RISK with riskLevel CRITICAL and factor
DURATION_EXCEEDS_LIMIT when durationDays > maxSafeStayDays; otherwise stayType
TEMPORARY_OCCUPANT with factor APPROACHING_LIMIT when
durationDays > maxSafeStayDays - warningDays, with riskLevel MEDIUM when no
payment is involved; otherwise stayType GUEST, with riskLevel LOW when no
payment is involved (payment may raise the riskLevel of the latter two cases
per the payment rule). -/
theorem c1_durationClassification (s : JurisdictionState) (d : StayDetails) :
    (d.durationDays > (JURISDICTION_RULES s).maxSafeStayDays →
      (analyzeStay s d).classification.stayType = "TENANT_RISK" ∧
      (analyzeStay s d).classification.riskLevel = Severity.CRITICAL ∧
      ∃ rf ∈ (analyzeStay s d).riskFactors, rf.factor = "DURATION_EXCEEDS_LIMIT") ∧
    (d.durationDays ≤ (JURISDICTION_RULES s).maxSafeStayDays →
      d.durationDays > (JURISDICTION_RULES s).maxSafeStayDays - (JURISDICTION_RULES s).warningDays →
      (analyzeStay s d).classification.stayType = "TEMPORARY_OCCUPANT" ∧
      (∃ rf ∈ (analyzeStay s d).riskFactors, rf.factor = "APPROACHING_LIMIT") ∧
      (d.paymentInvolved = false → (analyzeStay s d).classification.riskLevel = Severity.MEDIUM)) ∧
    (d.durationDays ≤ (JURISDICTION_RULES s).maxSafeStayDays - (JURISDICTION_RULES s).warningDays →
      (analyzeStay s d).classification.stayType = "GUEST" ∧
      (d.paymentInvolved = false → (analyzeStay s d).classification.riskLevel = Severity.LOW)) := by
  by_cases h1 : d.durationDays > (JURISDICTION_RULES s).maxSafeStayDays
  · by_cases hp : d.paymentInvolved = true
    · refine ⟨fun _ => ?_, fun hle _ => absurd h1 (not_lt.mpr hle), fun hle => ?_⟩
      · simp [analyzeStay, h1, hp]
      · exfalso
        have hwarn : (0:Int) < (JURISDICTION_RULES s).warningDays := by cases s <;> decide
        omega
    · replace hp : d.paymentInvolved = false := by simpa using hp
      refine ⟨fun _ => ?_, fun hle _ => absurd h1 (not_lt.mpr hle), fun hle => ?_⟩
      · simp [analyzeStay, h1, hp]
      · exfalso
        have hwarn : (0:Int) < (JURISDICTION_RULES s).warningDays := by cases s <;> decide
        omega
  · by_cases h2 : d.durationDays > (JURISDICTION_RULES s).maxSafeStayDays - (JURISDICTION_RULES s).warningDays
    · by_cases hp : d.paymentInvolved = true
      · refine ⟨fun hgt => absurd hgt h1, fun _ _ => ?_, fun hle => ?_⟩
        · simp [analyzeStay, h1, h2, hp]
        · exfalso; omega
      · replace hp : d.paymentInvolved = false := by simpa using hp
        refine ⟨fun hgt => absurd hgt h1, fun _ _ => ?_, fun hle => ?_⟩
        · simp [analyzeStay, h1, h2, hp]
        · exfalso; omega
    · by_cases hp : d.paymentInvolved = true
      · refine ⟨fun hgt => absurd hgt h1, fun _ hgt => absurd hgt h2, fun _ => ?_⟩
        simp [analyzeStay, h1, h2, hp]
      · replace hp : d.paymentInvolved = false := by simpa using hp
        refine ⟨fun hgt => absurd hgt h1, fun _ hgt => absurd hgt h2, fun _ => ?_⟩
        simp [analyzeStay, h1, h2, hp]

/-- C1 witness: the three scenario instances of the amended claim — with
`maxSafeStayDays = 29` and `warningDays = 5` (New York), a 30-day stay is
TENANT_RISK/CRITICAL, a 26-day stay is TEMPORARY_OCCUPANT/MEDIUM, and a
10-day stay with no payment is GUEST/LOW. -/
theorem c1_witness :
    (analyzeStay .NY ⟨30, false, false, 0, 0⟩).classification.stayType = "TENANT_RISK" ∧
    (analyzeStay .NY ⟨30, false, false, 0, 0⟩).classification.riskLevel = Severity.CRITICAL ∧
    (analyzeStay .NY ⟨26, false, false, 0, 0⟩).classification.stayType = "TEMPORARY_OCCUPANT" ∧
    (analyzeStay .NY ⟨26, false, false, 0, 0⟩).classification.riskLevel = Severity.MEDIUM ∧
    (analyzeStay .NY ⟨10, false, false, 0, 0⟩).classification.stayType = "GUEST" ∧
    (analyzeStay .NY ⟨10, false, false, 0, 0⟩).classification.riskLevel = Severity.LOW := by
  have h30 := c1_durationClassification .NY ⟨30, false, false, 0, 0⟩
  have h26 := c1_durationClassification .NY ⟨26, false, false, 0, 0⟩
  have h10 := c1_durationClassification .NY ⟨10, false, false, 0, 0⟩
  exact ⟨(h30.1 (by decide)).1, (h30.1 (by decide)).2.1,
    (h26.2.1 (by decide) (by decide)).1, (h26.2.1 (by decide) (by decide)).2.2 rfl,
    (h10.2.2 (by decide)).1, (h10.2.2 (by decide)).2 rfl⟩

/-- C2 counterexample: `analyzeStay` does not compute durationDays from the
dates. A stay whose dates span 40 days but whose `durationDays` field is 10 is
classified GUEST, whereas recomputing the duration from the dates as the
specification prescribes yields TENANT_RISK — so the result differs from what
the claim predicts at this input. -/
theorem c2_counterexample :
    specDurationDays ⟨10, false, false, 0, 40⟩ = 40 ∧
    (analyzeStay .NY ⟨10, false, false, 0, 40⟩).classification.stayType = "GUEST" ∧
    (analyzeStay .NY ⟨specDurationDays ⟨10, false, false, 0, 40⟩, false, false, 0, 40⟩).classification.stayType = "TENANT_RISK" ∧
    analyzeStay .NY ⟨10, false, false, 0, 40⟩ ≠
      analyzeStay .NY ⟨specDurationDays ⟨10, false, false, 0, 40⟩, false, false, 0, 40⟩ := by
  decide

/-- C2 (amended): `analyzeStay` uses the caller-supplied `durationDays` field
and its result is wholly independent of the `checkInDate`/`checkOutDate`
fields; the PropertyDetail caller supplies `max_stay_allowed_days` as the
duration (not a difference of the dates), so the classification result depends
on the dates not at all. -/
theorem c2_durationIsInput :
    ∀ (s : JurisdictionState) (dd : Int) (p e : Bool) (ci co ci2 co2 : Int),
      analyzeStay s ⟨dd, p, e, ci, co⟩ = analyzeStay s ⟨dd, p, e, ci2, co2⟩ ∧
      ∀ (stay : OwnerStayView), propertyDetailCurrentGuestRisk s stay =
        analyzeStay s ⟨stay.max_stay_allowed_days, false, false, 0, 0⟩ :=
  fun _ _ _ _ _ _ _ _ => ⟨rfl, fun _ => rfl⟩

/-- C3: for every supported region and every stay with payment involved,
`analyzeStay` adds a PAYMENT_INVOLVED factor whose severity is HIGH exactly
when the jurisdiction treats any payment as tenancy-creating (the Texas rule)
and MEDIUM otherwise, and the resulting riskLevel is that severity unless the
duration check had already made it CRITICAL. -/
theorem c3_payment (s : JurisdictionState) (d : StayDetails)
    (hp : d.paymentInvolved = true) :
    (∃ rf ∈ (analyzeStay s d).riskFactors,
      rf.factor = "PAYMENT_INVOLVED" ∧
      rf.severity = (if treatsAnyPaymentAsTenancyCreating s then Severity.HIGH else Severity.MEDIUM)) ∧
    (analyzeStay s d).classification.riskLevel =
      (if d.durationDays > (JURISDICTION_RULES s).maxSafeStayDays then Severity.CRITICAL
       else if treatsAnyPaymentAsTenancyCreating s then Severity.HIGH else Severity.MEDIUM) := by
  by_cases h1 : d.durationDays > (JURISDICTION_RULES s).maxSafeStayDays
  · by_cases hs : s = JurisdictionState.TX
    · subst hs; simp [analyzeStay, treatsAnyPaymentAsTenancyCreating, h1, hp]
    · simp [analyzeStay, treatsAnyPaymentAsTenancyCreating, h1, hp, hs]
  · by_cases h2 : d.durationDays > (JURISDICTION_RULES s).maxSafeStayDays - (JURISDICTION_RULES s).warningDays
    · by_cases hs : s = JurisdictionState.TX
      · subst hs; simp [analyzeStay, treatsAnyPaymentAsTenancyCreating, h1, h2, hp]
      · simp [analyzeStay, treatsAnyPaymentAsTenancyCreating, h1, h2, hp, hs]
    · by_cases hs : s = JurisdictionState.TX
      · subst hs; simp [analyzeStay, treatsAnyPaymentAsTenancyCreating, h1, h2, hp]
      · simp [analyzeStay, treatsAnyPaymentAsTenancyCreating, h1, h2, hp, hs]

/-- C3 witness: a 10-day Texas stay with payment gets a PAYMENT_INVOLVED
factor of severity HIGH and riskLevel HIGH. -/
theorem c3_witness :
    (∃ rf ∈ (analyzeStay .TX ⟨10, true, false, 0, 0⟩).riskFactors,
      rf.factor = "PAYMENT_INVOLVED" ∧
      rf.severity = (if treatsAnyPaymentAsTenancyCreating .TX then Severity.HIGH else Severity.MEDIUM)) ∧
    (analyzeStay .TX ⟨10, true, false, 0, 0⟩).classification.riskLevel =
      (if (10:Int) > (JURISDICTION_RULES .TX).maxSafeStayDays then Severity.CRITICAL
       else if treatsAnyPaymentAsTenancyCreating .TX then Severity.HIGH else Severity.MEDIUM) :=
  c3_payment .TX ⟨10, true, false, 0, 0⟩ rfl

/-- C4: for every supported region and stay, the riskScore equals the sum of
the fixed per-factor weights over the factors present, capped at 100; the
weight table is DURATION_EXCEEDS_LIMIT = 50, APPROACHING_LIMIT = 20,
PAYMENT_INVOLVED = 25, EXCLUSIVE_POSSESSION = 20, any other factor 10; the
score is 0 when no factors are present; and canProceed holds exactly when the
riskLevel is not CRITICAL. -/
theorem c4_riskScore (s : JurisdictionState) (d : StayDetails) :
    (analyzeStay s d).classification.riskScore =
      min 100 ((analyzeStay s d).riskFactors.foldl (fun acc rf => acc + factorWeight rf.factor) 0) ∧
    ((analyzeStay s d).riskFactors = [] → (analyzeStay s d).classification.riskScore = 0) ∧
    ((analyzeStay s d).canProceed = true ↔
      (analyzeStay s d).classification.riskLevel ≠ Severity.CRITICAL) ∧
    (factorWeight "DURATION_EXCEEDS_LIMIT" = 50 ∧ factorWeight "APPROACHING_LIMIT" = 20 ∧
      factorWeight "PAYMENT_INVOLVED" = 25 ∧ factorWeight "EXCLUSIVE_POSSESSION" = 20) ∧
    (∀ f : String, f ≠ "DURATION_EXCEEDS_LIMIT" → f ≠ "APPROACHING_LIMIT" →
      f ≠ "PAYMENT_INVOLVED" → f ≠ "EXCLUSIVE_POSSESSION" → factorWeight f = 10) := by
  have hscore : (analyzeStay s d).classification.riskScore =
      min 100 ((analyzeStay s d).riskFactors.foldl (fun acc rf => acc + factorWeight rf.factor) 0) := by
    by_cases h1 : d.durationDays > (JURISDICTION_RULES s).maxSafeStayDays <;>
      by_cases h2 : d.durationDays > (JURISDICTION_RULES s).maxSafeStayDays - (JURISDICTION_RULES s).warningDays <;>
      by_cases hp : d.paymentInvolved = true <;>
      simp [analyzeStay, h1, h2, hp]
  refine ⟨hscore, fun hempty => by rw [hscore, hempty]; simp, ?_, by decide, ?_⟩
  · by_cases h1 : d.durationDays > (JURISDICTION_RULES s).maxSafeStayDays <;>
      by_cases h2 : d.durationDays > (JURISDICTION_RULES s).maxSafeStayDays - (JURISDICTION_RULES s).warningDays <;>
      by_cases hp : d.paymentInvolved = true <;>
      by_cases hs : s = JurisdictionState.TX <;>
      simp_all [analyzeStay]
  · intro f hf1 hf2 hf3 hf4
    simp [factorWeight, List.lookup, beq_eq_false_iff_ne.mpr hf1, beq_eq_false_iff_ne.mpr hf2,
      beq_eq_false_iff_ne.mpr hf3, beq_eq_false_iff_ne.mpr hf4]

/-- C4 witness: a 10-day no-payment New York stay has no factors and score 0
and may proceed; an unknown factor weighs 10. -/
theorem c4_witness :
    (analyzeStay .NY ⟨10, false, false, 0, 0⟩).classification.riskScore = 0 ∧
    (analyzeStay .NY ⟨10, false, false, 0, 0⟩).canProceed = true ∧
    factorWeight "SOME_OTHER_FACTOR" = 10 := by
  have h := c4_riskScore .NY ⟨10, false, false, 0, 0⟩
  exact ⟨h.2.1 (by decide), (h.2.2.1).mpr (by decide),
    h.2.2.2.2 "SOME_OTHER_FACTOR" (by decide) (by decide) (by decide) (by decide)⟩

/-- C5 counterexample: the occupancy derivations ignore both `revoked_at` and
the start date. A stay starting tomorrow (start 101, today 100) with no
terminal markers, and likewise a revoked stay, each read as occupied in both
owner views although the claim says otherwise. -/
theorem c5_counterexample :
    ownerDashboardIsOccupied [⟨1, 1, 101, 110, 10, none, none, none⟩] 1 = true ∧
    propertyDetailIsOccupied [⟨1, 1, 101, 110, 10, none, none, none⟩] 1 = true ∧
    ¬ specOccupied [⟨1, 1, 101, 110, 10, none, none, none⟩] 1 100 ∧
    ownerDashboardIsOccupied [⟨2, 1, 90, 95, 10, some 99, none, none⟩] 1 = true ∧
    ¬ specOccupied [⟨2, 1, 90, 95, 10, some 99, none, none⟩] 1 100 := by
  decide

/-- C5 (amended): occupancy is derived, never stored — the owner dashboard and
the property-detail page agree, and a property reads as occupied iff at least
one of its stays has neither `checked_out_at` nor `cancelled_at` set (revoked
and not-yet-started stays also count as occupying; today plays no role). -/
theorem c5_occupancyDerived (stays : List OwnerStayView) (propId : Int) :
    ownerDashboardIsOccupied stays propId = propertyDetailIsOccupied stays propId ∧
    (ownerDashboardIsOccupied stays propId = true ↔
      ∃ s ∈ stays, s.property_id = propId ∧ s.checked_out_at = none ∧ s.cancelled_at = none) := by
  have howner : ownerDashboardIsOccupied stays propId = true ↔
      ∃ s ∈ stays, s.property_id = propId ∧ s.checked_out_at = none ∧ s.cancelled_at = none := by
    simp [ownerDashboardIsOccupied, ownerActiveStays, List.any_eq_true, List.mem_filter,
      Option.isSome_iff_ne_none]
    tauto
  have hdetail : propertyDetailIsOccupied stays propId = true ↔
      ∃ s ∈ stays, s.property_id = propId ∧ s.checked_out_at = none ∧ s.cancelled_at = none := by
    simp [propertyDetailIsOccupied, List.length_pos, List.eq_nil_iff_forall_not_mem,
      List.mem_filter, Option.isSome_iff_ne_none]
    tauto
  exact ⟨by rw [Bool.eq_iff_iff, howner, hdetail], howner⟩

/-- C5 witness: the amended occupancy characterization at a one-stay list. -/
theorem c5_witness :
    (ownerDashboardIsOccupied [⟨1, 1, 90, 110, 20, none, none, none⟩] 1 =
      propertyDetailIsOccupied [⟨1, 1, 90, 110, 20, none, none, none⟩] 1) ∧
    (ownerDashboardIsOccupied [⟨1, 1, 90, 110, 20, none, none, none⟩] 1 = true ↔
      ∃ s ∈ [(⟨1, 1, 90, 110, 20, none, none, none⟩ : OwnerStayView)],
        s.property_id = 1 ∧ s.checked_out_at = none ∧ s.cancelled_at = none) :=
  c5_occupancyDerived [⟨1, 1, 90, 110, 20, none, none, none⟩] 1

/-- C6 counterexample: a started, open, non-revoked stay whose end date has
passed (start 90, end 95, today 100) satisfies the claim's availability
condition, yet neither checkout control in the guest dashboard offers the
action, because the code additionally requires the end date to be on or after
today. -/
theorem c6_counterexample :
    claimCheckoutOffered ⟨90, 95, none, none, none, none⟩ 100 ∧
    guestCanCheckoutCard ⟨90, 95, none, none, none, none⟩ 100 = false ∧
    guestCheckoutButtonShown ⟨90, 95, none, none, none, none⟩ 100 = false := by
  decide

/-- C6 (amended): both checkout controls agree, and the action is offered
exactly when the stay has neither `checked_out_at` nor `cancelled_at` set, its
end date is on or after today, and either its start date is on or before today
or the stay has been revoked — so it is NOT available once the end date has
passed; completing it sets `checked_out_at` to today. -/
theorem c6_checkoutAvailability (s : GuestStayView) (today : Int) :
    guestCanCheckoutCard s today = guestCheckoutButtonShown s today ∧
    (guestCanCheckoutCard s today = true ↔
      (s.checked_out_at = none ∧ s.cancelled_at = none ∧ today ≤ s.approved_stay_end_date ∧
        (s.approved_stay_start_date ≤ today ∨ s.revoked_at ≠ none))) ∧
    (guestEndStay s today).checked_out_at = some today := by
  refine ⟨?_, ?_, rfl⟩
  · simp [guestCanCheckoutCard, guestCheckoutButtonShown, Bool.and_assoc]
  · simp [guestCanCheckoutCard, Option.isSome_iff_ne_none, ge_iff_le]
    tauto

/-- C6 witness: the amended availability rule at an ongoing stay
(start 90, end 110, today 100). -/
theorem c6_witness :
    (guestCanCheckoutCard ⟨90, 110, none, none, none, none⟩ 100 =
      guestCheckoutButtonShown ⟨90, 110, none, none, none, none⟩ 100) ∧
    (guestCanCheckoutCard ⟨90, 110, none, none, none, none⟩ 100 = true ↔
      ((⟨90, 110, none, none, none, none⟩ : GuestStayView).checked_out_at = none ∧
        (⟨90, 110, none, none, none, none⟩ : GuestStayView).cancelled_at = none ∧
        (100:Int) ≤ 110 ∧ ((90:Int) ≤ 100 ∨
          (⟨90, 110, none, none, none, none⟩ : GuestStayView).revoked_at ≠ none))) ∧
    (guestEndStay ⟨90, 110, none, none, none, none⟩ 100).checked_out_at = some 100 :=
  c6_checkoutAvailability ⟨90, 110, none, none, none, none⟩ 100

/-- C7: Shield Mode control is asymmetric — when Shield Mode is on, a click on
either owner-facing toggle handler issues an update setting
`shield_mode_enabled` to false (for the property-detail handler, with a
property loaded); when Shield Mode is off, no update is issued at all; and no
handler ever issues an update setting `shield_mode_enabled` to true. -/
theorem c7_shieldAsymmetric (shieldOn hasProperty : Bool) :
    ownerDashboardShieldClick true = some false ∧
    ownerDashboardShieldClick false = none ∧
    propertyDetailShieldClick true true = some false ∧
    propertyDetailShieldClick hasProperty false = none ∧
    ownerDashboardShieldClick shieldOn ≠ some true ∧
    propertyDetailShieldClick hasProperty shieldOn ≠ some true := by
  cases shieldOn <;> cases hasProperty <;> decide

/-- C7 witness: at `shieldOn = true` with a loaded property, each handler
issues the off-update `some false`, never `some true`, and issues nothing when
Shield Mode is off. -/
theorem c7_witness :
    ownerDashboardShieldClick true = some false ∧
    ownerDashboardShieldClick false = none ∧
    propertyDetailShieldClick true true = some false ∧
    propertyDetailShieldClick true false = none ∧
    ownerDashboardShieldClick true ≠ some true ∧
    propertyDetailShieldClick true true ≠ some true :=
  c7_shieldAsymmetric true true

/-- C8: for every open stay with the Dead Mans Switch enabled, once today is
more than 48 hours past the end date, the evaluator leaves the stay unchanged
(no terminal marker set), sets the property to vacant-equivalent enforcement,
flags it for utility lock, and the stay still reads as overstayed. -/
theorem c8_hardOverstay (today : Int) (s : SchedStay) (p : SchedProperty)
    (hdms : s.deadMansSwitchEnabled = true) (hopen : schedStayOpen s = true)
    (hlate : today > s.stayEndDate + 48) :
    (evaluateHardOverstay today s p).1 = s ∧
    (evaluateHardOverstay today s p).2.vacantEquivalentEnforcement = true ∧
    (evaluateHardOverstay today s p).2.utilityLockFlagged = true ∧
    schedOverstayed (evaluateHardOverstay today s p).1 today = true := by
  have hend : s.stayEndDate < today := by omega
  simp [evaluateHardOverstay, schedOverstayed, hdms, hopen, hlate, hend]

/-- C8 witness: an open stay ending at hour 100, evaluated at hour 200. -/
theorem c8_witness :
    (evaluateHardOverstay 200 ⟨100, none, none, none, true⟩ ⟨false, false⟩).1 =
      ⟨100, none, none, none, true⟩ ∧
    (evaluateHardOverstay 200 ⟨100, none, none, none, true⟩ ⟨false, false⟩).2.vacantEquivalentEnforcement = true ∧
    (evaluateHardOverstay 200 ⟨100, none, none, none, true⟩ ⟨false, false⟩).2.utilityLockFlagged = true ∧
    schedOverstayed (evaluateHardOverstay 200 ⟨100, none, none, none, true⟩ ⟨false, false⟩).1 200 = true :=
  c8_hardOverstay 200 ⟨100, none, none, none, true⟩ ⟨false, false⟩ rfl (by decide) (by decide)

/-- C9: `analyzeStay` is total on the five supported region codes — for each
of them it returns a classification — and for any other region code it fails
with the "Unsupported jurisdiction" error rather than returning a default. -/
theorem c9_totality (code : String) (d : StayDetails) :
    ((code = "NY" ∨ code = "FL" ∨ code = "CA" ∨ code = "TX" ∨ code = "WA") →
      ∃ r, analyzeStayChecked code d = .ok r) ∧
    (¬(code = "NY" ∨ code = "FL" ∨ code = "CA" ∨ code = "TX" ∨ code = "WA") →
      analyzeStayChecked code d = .error "Unsupported jurisdiction") := by
  constructor
  · rintro (h | h | h | h | h) <;> subst h <;> exact ⟨_, rfl⟩
  · intro h
    push_neg at h
    obtain ⟨h1, h2, h3, h4, h5⟩ := h
    simp [analyzeStayChecked, parseJurisdiction, h1, h2, h3, h4, h5]

/-- C9 witness: "NY" succeeds, "ZZ" yields the unsupported-jurisdiction
error. -/
theorem c9_witness :
    (∃ r, analyzeStayChecked "NY" ⟨10, false, false, 0, 0⟩ = .ok r) ∧
    analyzeStayChecked "ZZ" ⟨10, false, false, 0, 0⟩ = .error "Unsupported jurisdiction" :=
  ⟨(c9_totality "NY" ⟨10, false, false, 0, 0⟩).1 (Or.inl rfl),
   (c9_totality "ZZ" ⟨10, false, false, 0, 0⟩).2 (by decide)⟩

/-- C10: for every state other than FL and NY, `generateAgreementContent`
silently falls back to the Florida template: the agreement carries the Florida
title, the Florida clause set including the HB 621 declaration, and the
12-hour revocation period. -/
theorem c10_floridaFallback (s : JurisdictionState) (hFL : s ≠ .FL) (hNY : s ≠ .NY) :
    selectedTemplate s = FL_TEMPLATE ∧
    generateAgreementContent s = generateAgreementContent .FL ∧
    (generateAgreementContent s).title = "FLORIDA TRANSIENT OCCUPANCY LICENSE (F.S. § 82.036)" ∧
    (generateAgreementContent s).clauses.map (Option.map Clause.id) =
      [some "NO_TENANCY_UNIVERSAL", some "NO_HOMESTEAD_UNIVERSAL", some "FL_HB621_DECLARATION",
       some "REVOCABILITY_UNIVERSAL", some "UTILITY_RESTRICTION_UNIVERSAL"] ∧
    (selectedTemplate s).revocationHours = 12 := by
  cases s
  all_goals first
    | exact absurd rfl hNY
    | exact absurd rfl hFL
    | decide

/-- C10 witness: the Florida fallback at California. -/
theorem c10_witness :
    selectedTemplate .CA = FL_TEMPLATE ∧
    generateAgreementContent .CA = generateAgreementContent .FL ∧
    (generateAgreementContent .CA).title = "FLORIDA TRANSIENT OCCUPANCY LICENSE (F.S. § 82.036)" ∧
    (generateAgreementContent .CA).clauses.map (Option.map Clause.id) =
      [some "NO_TENANCY_UNIVERSAL", some "NO_HOMESTEAD_UNIVERSAL", some "FL_HB621_DECLARATION",
       some "REVOCABILITY_UNIVERSAL", some "UTILITY_RESTRICTION_UNIVERSAL"] ∧
    (selectedTemplate .CA).revocationHours = 12 :=
  c10_floridaFallback .CA (by decide) (by decide)

end DocuStay
